import Mathlib

/-!
Shallow embedding of the voice pipeline of this repository.

The runtime programs are the scripts the installers emit:
`kokoro_server.py` (written by `Scripts/setup_kokoro.py`, a Flask TTS server)
and `test_vosk.py` (written by `Scripts/setup_vosk.py`, a streaming
recognition loop over a Vosk recognizer).  Pure control flow is translated
directly; external effects (filesystem, torch, numpy's global RNG, the Vosk
engine) are made explicit parameters or outputs.
-/

namespace Kokoro

/-- The filesystem and external-library behavior visible to `load_model`:
whether `kokoro_models/kokoro_model.pth` and `kokoro_models/config.json`
exist, their contents (abstracted as naturals), and whether `torch.load`
raises. -/
structure FS where
  modelFileExists : Bool
  configFileExists : Bool
  modelArtifact : Nat
  configContent : Nat
  torchLoadFails : Bool
  deriving DecidableEq

/-- The server's global mutable variables `model` and `config`
(`model = None` initially, i.e. `none`). -/
structure ServerState where
  model : Option Nat
  config : Option Nat
  deriving DecidableEq

/-- Result of a `load_model()` call: the updated globals, whether the call
returned normally (`ok = false` means an exception propagated), and how many
times the model artifact file was read (`torch.load` opens it). -/
structure LoadOutcome where
  state : ServerState
  ok : Bool
  artifactReads : Nat
  deriving DecidableEq

/-- `load_model()` from kokoro_server.py: raises FileNotFoundError when either
model file is missing (globals untouched); otherwise reads the config into the
global `config`, then `torch.load`s the artifact into the global `model`
(re-raising on failure, with `config` already overwritten). There is no
"already loaded" check: the artifact is read on every call. -/
def load_model (fs : FS) (s : ServerState) : LoadOutcome :=
  if fs.modelFileExists && fs.configFileExists then
    let s1 : ServerState := { s with config := some fs.configContent }
    if fs.torchLoadFails then
      { state := s1, ok := false, artifactReads := 1 }
    else
      { state := { s1 with model := some fs.modelArtifact }, ok := true, artifactReads := 1 }
  else
    { state := s, ok := false, artifactReads := 0 }

/-- Errors `synthesize_speech` can raise.  In the placeholder body the only
raise reachable is `RuntimeError("Model not loaded")`; the
`RuntimeError(f"Speech synthesis failed: ...")` wrapper is unreachable because
the placeholder body (`np.random.randn` on a nonnegative size) does not
raise. -/
inductive SynthError where
  | modelNotLoaded
  deriving DecidableEq

/-- The exception message `str(e)` for a `SynthError`. -/
def errorMessage : SynthError → String
  | .modelNotLoaded => "Model not loaded"

/-- The audio array returned by `synthesize_speech`: `audioLen` random
samples (`np.random.randn(int(sample_rate * duration))`) at `sampleRate`.
`samples i` is the i-th draw from the RNG stream for `i < audioLen`. -/
structure SynthResult where
  audioLen : Nat
  sampleRate : Nat
  samples : Nat → Int

/-- `duration = len(text) * 0.1` (exact rational model of the float). -/
def duration (text : String) : ℚ := text.length * (1 / 10)

/-- `int(sample_rate * duration)` with `sample_rate = 22050`. -/
def synthLen (text : String) : Nat := (⌊(22050 : ℚ) * duration text⌋).toNat

theorem synthLen_eq (text : String) : synthLen text = 2205 * text.length := by
  unfold synthLen duration
  have h : (22050 : ℚ) * (text.length * (1 / 10)) = ((2205 * text.length : ℕ) : ℚ) := by
    push_cast
    ring
  rw [h, Int.floor_natCast]
  exact Int.toNat_natCast _

/-- `synthesize_speech(text, voice_id="default", speed=1.0)` from
kokoro_server.py.  `rng` is numpy's global RNG stream at call time (the
placeholder fills the buffer with `np.random.randn` draws).  `voice_id` and
`speed` are accepted but never used by the placeholder body. -/
def synthesize_speech (rng : Nat → Int) (model : Option Nat)
    (text voice_id : String) (speed : ℚ) : Except SynthError SynthResult :=
  match model with
  | none => .error .modelNotLoaded
  | some _ =>
      .ok { audioLen := synthLen text
            sampleRate := 22050
            samples := fun i => if i < synthLen text then rng i else 0 }

/-- The static voice catalog returned by `get_voices` (`/voices`):
id, name, language triples. -/
def voices : List (String × String × String) :=
  [("default", "Default Voice", "en-US"),
   ("female1", "Female Voice 1", "en-US"),
   ("male1", "Male Voice 1", "en-US")]

/-- JSON body of a POST /synthesize request: the handler reads `text`
(required), `voice_id` (default "default") and `speed` (default 1.0).
`none` at the top level models a missing/falsy JSON body. -/
structure ReqData where
  text? : Option String
  voice_id? : Option String
  speed? : Option ℚ

/-- HTTP response of the /synthesize handler: either the audio file
(status 200, audio/wav) or a JSON error object with its status code. -/
inductive HttpResponse where
  | audioFile (res : SynthResult)
  | jsonError (status : Nat) (msg : String)

/-- Observable outcome of one /synthesize request: the response, whether
`synthesize_speech` was invoked, and how many temporary files the handler
created and deleted. -/
structure SynthOutcome where
  response : HttpResponse
  modelInvoked : Bool
  tempCreated : Nat
  tempDeleted : Nat

/-- The POST /synthesize handler from kokoro_server.py.  Mirrors the source:
missing body or missing `text` key → 400 "Text is required";
`len(text) > 1000` → 400 "Text too long (max 1000 characters)";
otherwise `synthesize_speech` runs; on success the audio is written to a
`NamedTemporaryFile(suffix=.wav, delete=False)` which is never removed
(`tempDeleted = 0` everywhere), and sent; a raised exception becomes a
500 with `str(e)`. -/
def synthesize (rng : Nat → Int) (model : Option Nat) (data : Option ReqData) :
    SynthOutcome :=
  match data with
  | none =>
      { response := .jsonError 400 "Text is required"
        modelInvoked := false, tempCreated := 0, tempDeleted := 0 }
  | some d =>
      match d.text? with
      | none =>
          { response := .jsonError 400 "Text is required"
            modelInvoked := false, tempCreated := 0, tempDeleted := 0 }
      | some text =>
          if text.length > 1000 then
            { response := .jsonError 400 "Text too long (max 1000 characters)"
              modelInvoked := false, tempCreated := 0, tempDeleted := 0 }
          else
            match synthesize_speech rng model text (d.voice_id?.getD "default")
                (d.speed?.getD 1) with
            | .ok res =>
                { response := .audioFile res
                  modelInvoked := true, tempCreated := 1, tempDeleted := 0 }
            | .error e =>
                { response := .jsonError 500 (errorMessage e)
                  modelInvoked := true, tempCreated := 0, tempDeleted := 0 }

end Kokoro

namespace Vosk

/-- The session format fixed at start: `KaldiRecognizer(model, 16000)` and
`frames_per_buffer=4096` in test_vosk.py. -/
structure SessionConfig where
  sampleRate : Nat
  chunkSize : Nat
  deriving DecidableEq

/-- One audio chunk handed to the loop body (`stream.read(...)`): its length
in samples and the rate it was captured at. -/
structure Chunk where
  len : Nat
  rate : Nat
  deriving DecidableEq

/-- The Vosk engine's reaction to one `AcceptWaveform(data)` call, which the
loop cannot predict: `accepted text` = AcceptWaveform returned True and
`Result()`'s `text` field is `text`; `notAccepted t` = it returned False and
`PartialResult()`'s best-effort field is `t`; `engineError msg` = the engine
raised. -/
inductive EngineStep where
  | accepted (text : String)
  | notAccepted (bestEffortText : String)
  | engineError (msg : String)
  deriving DecidableEq

/-- Recognition events the loop prints outward: a committed transcript
(`Recognized: ...` for the `Result()` branch) or an in-progress best-effort
transcript (`Partial: ...` for the `PartialResult()` branch). -/
inductive RecEvent where
  | recognized (text : String)
  | interim (text : String)
  deriving DecidableEq

/-- One iteration of the test_vosk.py loop body on a chunk.  The source
passes `data` straight to `AcceptWaveform` with no inspection: neither the
chunk's length nor its rate is compared against `cfg`.  An accepted waveform
prints the committed text when non-empty; a non-accepted one prints the
best-effort text when non-empty; an engine exception escapes the loop body
(second component `false` = abort). -/
def feedChunk (cfg : SessionConfig) (chunk : Chunk) (step : EngineStep) :
    List RecEvent × Bool :=
  match step with
  | .accepted text => (if text = "" then [] else [.recognized text], true)
  | .notAccepted t => (if t = "" then [] else [.interim t], true)
  | .engineError _ => ([], false)

/-- The `while True` loop of `test_vosk_model`, driven by a finite trace of
chunks and engine reactions (the trace ending models KeyboardInterrupt,
which returns True).  An engine exception propagates to the outer
`except`, which stops processing and makes the function return False:
remaining chunks are never fed. -/
def runLoop (cfg : SessionConfig) : List (Chunk × EngineStep) → List RecEvent × Bool
  | [] => ([], true)
  | (c, s) :: rest =>
      match feedChunk cfg c s with
      | (evs, cont) =>
          if cont then
            let r := runLoop cfg rest
            (evs ++ r.1, r.2)
          else
            ([], false)

/-- The default configuration test_vosk.py runs with. -/
def cfg16 : SessionConfig := { sampleRate := 16000, chunkSize := 4096 }

/-- A chunk matching the configured format. -/
def chunk4096 : Chunk := { len := 4096, rate := 16000 }

end Vosk

namespace Kokoro

/-- Claim C1 counterexample: `synthesize_speech` is not a deterministic
function of `(text, voice_id, speed)` — two calls with identical inputs but
different global RNG states return different audio sample data (the
placeholder draws fresh `np.random.randn` samples on every call). -/
theorem synth_rng_dependent_cex :
    synthesize_speech (fun _ => 0) (some 0) "a" "default" 1 ≠
      synthesize_speech (fun _ => 1) (some 0) "a" "default" 1 := by
  intro h
  have h2 := congrArg
    (fun r => match r with
      | Except.ok res => res.samples 0
      | Except.error _ => 0) h
  simp only [synthesize_speech] at h2
  rw [synthLen_eq, show "a".length = 1 from rfl] at h2
  norm_num at h2

/-- Claim C1 (amended): for every loaded model state, two `synthesize_speech`
calls with identical `(text, voice_id, speed)` both succeed and agree on
`sampleRate` and `audioLen` — the shape of the result is a deterministic
function of the request — but the sample data itself depends on the RNG
state and is not bitwise reproducible. -/
theorem synth_len_rate_deterministic (m : Nat) (rng₁ rng₂ : Nat → Int)
    (text voice_id : String) (speed : ℚ) :
    ∃ r₁ r₂,
      synthesize_speech rng₁ (some m) text voice_id speed = .ok r₁ ∧
      synthesize_speech rng₂ (some m) text voice_id speed = .ok r₂ ∧
      r₁.audioLen = r₂.audioLen ∧ r₁.sampleRate = r₂.sampleRate :=
  ⟨_, _, rfl, rfl, rfl, rfl⟩

/-- Claim C2: a /synthesize request whose `text` exceeds 1000 characters is
answered with the 400 "Text too long" error and `synthesize_speech` is never
invoked, whatever the model state and RNG. -/
theorem textTooLong_rejected_before_model (rng : Nat → Int) (model : Option Nat)
    (d : ReqData) (text : String) (ht : d.text? = some text)
    (hlen : text.length > 1000) :
    (synthesize rng model (some d)).response =
        .jsonError 400 "Text too long (max 1000 characters)" ∧
      (synthesize rng model (some d)).modelInvoked = false := by
  simp only [synthesize, ht]
  rw [if_pos hlen]
  exact ⟨rfl, rfl⟩

/-- Witness for C2 at a concrete 1001-character text with the model absent. -/
theorem textTooLong_rejected_before_model_witness :
    ((⟨some (String.mk (List.replicate 1001 'a')), none, none⟩ : ReqData).text? =
        some (String.mk (List.replicate 1001 'a'))) ∧
      (String.mk (List.replicate 1001 'a')).length > 1000 ∧
      ((synthesize (fun _ => 0) none
            (some ⟨some (String.mk (List.replicate 1001 'a')), none, none⟩)).response =
          .jsonError 400 "Text too long (max 1000 characters)" ∧
        (synthesize (fun _ => 0) none
            (some ⟨some (String.mk (List.replicate 1001 'a')), none, none⟩)).modelInvoked =
          false) :=
  ⟨rfl, by rw [String.length_mk, List.length_replicate]; norm_num,
    textTooLong_rejected_before_model (fun _ => 0) none _ _ rfl
      (by rw [String.length_mk, List.length_replicate]; norm_num)⟩

/-- Claim C9: with the model loaded, two `synthesize_speech` calls for
`("hello", "default", 1.0)` both succeed with sample rate 22050 and audio
length 11025 = int(22050 * 5 * 0.1), so the two results have identical
`sample_rate` and identical audio length. -/
theorem hello_synth_deterministic_shape (m : Nat) (rng₁ rng₂ : Nat → Int) :
    ∃ r₁ r₂,
      synthesize_speech rng₁ (some m) "hello" "default" 1 = .ok r₁ ∧
      synthesize_speech rng₂ (some m) "hello" "default" 1 = .ok r₂ ∧
      r₁.sampleRate = 22050 ∧ r₂.sampleRate = 22050 ∧
      r₁.audioLen = 11025 ∧ r₂.audioLen = 11025 := by
  refine ⟨_, _, rfl, rfl, rfl, rfl, ?_, ?_⟩ <;>
    simp [synthesize_speech, synthLen_eq, show "hello".length = 5 from rfl]

/-- Claim C4 counterexample: with the model already successfully loaded
(model = some 1) and the artifact on disk now holding content 2, a second
`load_model` call is not a no-op: it reads the artifact again
(`artifactReads = 1`, not 0) and replaces the loaded model with the
artifact's current content (some 2). -/
theorem load_model_not_noop_cex :
    load_model ⟨true, true, 2, 5, false⟩ ⟨some 1, some 5⟩ ≠
        { state := ⟨some 1, some 5⟩, ok := true, artifactReads := 0 } ∧
      (load_model ⟨true, true, 2, 5, false⟩ ⟨some 1, some 5⟩).artifactReads = 1 ∧
      (load_model ⟨true, true, 2, 5, false⟩ ⟨some 1, some 5⟩).state.model = some 2 := by
  decide

/-- Claim C4 (amended): `load_model` has no already-loaded check — whenever
both model files exist and `torch.load` succeeds, it re-reads the artifact
exactly once and overwrites the global model with the artifact's content,
regardless of the prior state.  In particular a call after a prior failed
load retries and succeeds (the retry clause of the claim holds), but a call
while already loaded is not a no-op. -/
theorem load_model_always_reloads (fs : FS) (s : ServerState)
    (hm : fs.modelFileExists = true) (hc : fs.configFileExists = true)
    (hl : fs.torchLoadFails = false) :
    (load_model fs s).artifactReads = 1 ∧ (load_model fs s).ok = true ∧
      (load_model fs s).state.model = some fs.modelArtifact := by
  simp [load_model, hm, hc, hl]

/-- Witness for the amended C4 at a concrete filesystem and an
already-loaded state. -/
theorem load_model_always_reloads_witness :
    (FS.modelFileExists ⟨true, true, 2, 5, false⟩ = true) ∧
      (FS.configFileExists ⟨true, true, 2, 5, false⟩ = true) ∧
      (FS.torchLoadFails ⟨true, true, 2, 5, false⟩ = false) ∧
      ((load_model ⟨true, true, 2, 5, false⟩ ⟨some 1, some 5⟩).artifactReads = 1 ∧
        (load_model ⟨true, true, 2, 5, false⟩ ⟨some 1, some 5⟩).ok = true ∧
        (load_model ⟨true, true, 2, 5, false⟩ ⟨some 1, some 5⟩).state.model = some 2) :=
  ⟨rfl, rfl, rfl, load_model_always_reloads _ ⟨some 1, some 5⟩ rfl rfl rfl⟩

/-- Claim C5 counterexample: "nonexistent" is not an id in the voice
catalog, yet `synthesize_speech` with that voice id succeeds (the
placeholder never consults the catalog and never raises
SynthesisFailure for an unknown voice). -/
theorem unknown_voice_succeeds_cex :
    ¬("nonexistent" ∈ voices.map fun v => v.1) ∧
      ∃ r, synthesize_speech (fun _ => 0) (some 0) "hi" "nonexistent" 1 = .ok r ∧
        r.audioLen = 4410 ∧ r.sampleRate = 22050 := by
  refine ⟨by decide, _, rfl, ?_, rfl⟩
  simp [synthesize_speech, synthLen_eq, show "hi".length = 2 from rfl]

/-- Claim C5 (amended): `synthesize_speech` ignores `voice_id` entirely —
any two voice ids (catalogued or not) yield the same result, so an unknown
voice id succeeds exactly like the default and is never surfaced as a
SynthesisFailure. -/
theorem synth_ignores_voice (rng : Nat → Int) (model : Option Nat)
    (text v₁ v₂ : String) (speed : ℚ) :
    synthesize_speech rng model text v₁ speed =
      synthesize_speech rng model text v₂ speed := rfl

/-- Claim C6 counterexample: a completed /synthesize request for text "hi"
with the model loaded creates one temporary file and deletes none
(`NamedTemporaryFile(..., delete=False)` with no later unlink), so a
temporary file created for the request remains on disk afterwards. -/
theorem temp_file_left_cex :
    (synthesize (fun _ => 0) (some 0) (some ⟨some "hi", none, none⟩)).tempCreated = 1 ∧
      (synthesize (fun _ => 0) (some 0) (some ⟨some "hi", none, none⟩)).tempDeleted = 0 ∧
      ∃ r, (synthesize (fun _ => 0) (some 0)
          (some ⟨some "hi", none, none⟩)).response = .audioFile r :=
  ⟨rfl, rfl, _, rfl⟩

/-- Claim C6 (amended): the /synthesize handler never deletes a temporary
file on any path — the temp file is created with delete=False and no cleanup
runs, so every successful request leaves its temp file on disk. -/
theorem no_temp_cleanup (rng : Nat → Int) (model : Option Nat)
    (data : Option ReqData) :
    (synthesize rng model data).tempDeleted = 0 := by
  rcases data with _ | d
  · rfl
  · rcases hd : d.text? with _ | t
    · simp [synthesize, hd]
    · rcases model with _ | m <;>
        · simp only [synthesize, hd, synthesize_speech]
          split <;> rfl

/-- `not data or 'text' not in data` from the /synthesize handler: whether
the request body is present and carries a `text` key. -/
def hasText (data : Option ReqData) : Bool :=
  match data with
  | none => false
  | some d => d.text?.isSome

/-- Claim C10: a /synthesize request whose `text` is the empty string is not
rejected — with the model loaded it succeeds with a zero-length audio buffer
at sample rate 22050 — and the 400 "Text is required" error occurs exactly
when the body is absent or lacks the `text` key. -/
theorem empty_text_succeeds (rng : Nat → Int) (m : Nat)
    (vd : Option String) (sp : Option ℚ) (data : Option ReqData) :
    (∃ r, (synthesize rng (some m) (some ⟨some "", vd, sp⟩)).response = .audioFile r ∧
        r.audioLen = 0 ∧ r.sampleRate = 22050) ∧
      ((synthesize rng (some m) data).response = .jsonError 400 "Text is required" ↔
        hasText data = false) := by
  constructor
  · exact ⟨_, rfl, by simp [synthesize_speech, synthLen_eq], rfl⟩
  · rcases data with _ | d
    · simp [synthesize, hasText]
    · rcases hd : d.text? with _ | t
      · simp [synthesize, hasText, hd]
      · simp only [synthesize, hasText, hd, Option.isSome_some]
        split
        · simp
        · simp [synthesize_speech]

/-- Witness for C10 at a concrete empty-text request and at a concrete
bodyless request. -/
theorem empty_text_succeeds_witness :
    (∃ r, (synthesize (fun _ => 0) (some 0)
          (some ⟨some "", none, none⟩)).response = .audioFile r ∧
        r.audioLen = 0 ∧ r.sampleRate = 22050) ∧
      ((synthesize (fun _ => 0) (some 0) none).response =
          .jsonError 400 "Text is required" ↔ hasText (none : Option ReqData) = false) :=
  ⟨(empty_text_succeeds (fun _ => 0) 0 none none none).1,
    (empty_text_succeeds (fun _ => 0) 0 none none none).2⟩

end Kokoro

namespace Vosk

/-- Claim C3 counterexample: an engine-internal decode error on the first
chunk produces no DecodeError event (no such event kind exists), aborts the
run with failure (returns False), and the session does not continue — the
second chunk, which alone would emit an in-progress event, is never
processed. -/
theorem decode_error_terminates_cex :
    runLoop cfg16 [(chunk4096, .engineError "boom"),
        (chunk4096, .notAccepted "hi")] = ([], false) ∧
      runLoop cfg16 [(chunk4096, .notAccepted "hi")] =
        ([RecEvent.interim "hi"], true) := by
  decide

/-- Claim C3 (amended): engine-internal decode errors are fatal — the
exception escapes the loop to the outer handler, which closes the stream and
returns False; no event is emitted for the failing chunk and no subsequent
chunk of the trace is processed. -/
theorem decode_error_fatal (cfg : SessionConfig) (c : Chunk) (msg : String)
    (rest : List (Chunk × EngineStep)) :
    runLoop cfg ((c, .engineError msg) :: rest) = ([], false) := by
  simp [runLoop, feedChunk]

/-- Claim C7 counterexample: two consecutive chunks with no committed
boundary and the identical non-empty best-effort text "hi" emit two
consecutive identical in-progress events — the loop has no memory of the
last emitted text. -/
theorem duplicate_interims_cex :
    runLoop cfg16 [(chunk4096, .notAccepted "hi"),
        (chunk4096, .notAccepted "hi")] =
      ([RecEvent.interim "hi", RecEvent.interim "hi"], true) := by
  decide

/-- Claim C7 (amended): on a chunk with no committed boundary the loop emits
an in-progress event whenever the best-effort text is non-empty, with no
comparison against any previously emitted text; consecutive identical
Partials are therefore emitted. -/
theorem interim_no_dedup (cfg : SessionConfig) (c : Chunk) (t : String)
    (rest : List (Chunk × EngineStep)) (ht : t ≠ "") :
    runLoop cfg ((c, .notAccepted t) :: rest) =
      (RecEvent.interim t :: (runLoop cfg rest).1, (runLoop cfg rest).2) := by
  simp [runLoop, feedChunk, ht]

/-- Witness for the amended C7 on a concrete one-chunk trace. -/
theorem interim_no_dedup_witness :
    ("hi" ≠ "") ∧
      runLoop cfg16 [(chunk4096, .notAccepted "hi")] =
        (RecEvent.interim "hi" :: (runLoop cfg16 []).1, (runLoop cfg16 []).2) :=
  ⟨by decide, interim_no_dedup cfg16 chunk4096 "hi" [] (by decide)⟩

/-- Claim C8 counterexample: a chunk whose length (1000) and rate (8000)
both differ from the configured format (4096 samples at 16000 Hz) is not
rejected with a FormatMismatch error — it is fed to the engine and its
event is emitted exactly as for a well-formed chunk. -/
theorem format_mismatch_not_rejected_cex :
    feedChunk cfg16 ⟨1000, 8000⟩ (.notAccepted "hi") =
        ([RecEvent.interim "hi"], true) ∧
      feedChunk cfg16 ⟨1000, 8000⟩ (.notAccepted "hi") =
        feedChunk cfg16 chunk4096 (.notAccepted "hi") := by
  decide

/-- Claim C8 (amended): the feed path performs no format validation at all —
its outcome depends only on the engine's reaction, never on the chunk's
length or rate or on the configured format; there is no FormatMismatch
error. -/
theorem feed_ignores_format (cfg cfg' : SessionConfig) (c c' : Chunk)
    (step : EngineStep) :
    feedChunk cfg c step = feedChunk cfg' c' step := rfl

end Vosk
